import Mathlib

/-!
Shallow embedding of the nextjsblog utilities: the metrics prober
(`src/lib/metrics.ts` and its near-duplicate in `src/unnamed/part_002`),
the Directus content fetcher (`src/lib/directus.ts`), and the two API
route handlers (`src/app/api/metrics/route.ts` / `src/unnamed/part_000`
for metrics, `src/unnamed/part_001` for revalidation).

Times are modelled as absolute `Nat` instants supplied to each operation
(`Date.now()` readings); network behaviour is supplied as an explicit
outcome value, so every operation becomes a total function of its inputs
and the network outcome.
-/

namespace NextjsBlog

/-- A character matched by the JavaScript regex class `\s`
(space, tab, LF, VT, FF, CR, NBSP and the Unicode space separators). -/
def isJsWhitespace (c : Char) : Bool :=
  c.toNat = 32 || c.toNat = 9 || c.toNat = 10 || c.toNat = 11 ||
  c.toNat = 12 || c.toNat = 13 || c.toNat = 160 || c.toNat = 5760 ||
  (8192 ≤ c.toNat && c.toNat ≤ 8202) || c.toNat = 8232 || c.toNat = 8233 ||
  c.toNat = 8239 || c.toNat = 8287 || c.toNat = 12288 || c.toNat = 65279

/-- `replace(/\s+/g, ' ')`: each maximal run of whitespace becomes one space.
The flag records whether the previous character belonged to a whitespace run. -/
def collapseAux : Bool → List Char → List Char
  | _, [] => []
  | prevWs, c :: rest =>
    if isJsWhitespace c then
      if prevWs then collapseAux true rest else ' ' :: collapseAux true rest
    else c :: collapseAux false rest

/-- `s.replace(/\s+/g, ' ')` on a character list. -/
def collapseWs (l : List Char) : List Char :=
  collapseAux false l

/-- JavaScript `String.prototype.trim()`: drop leading and trailing whitespace. -/
def trimChars (l : List Char) : List Char :=
  ((l.dropWhile isJsWhitespace).reverse.dropWhile isJsWhitespace).reverse

/-- `html.substring(0, 300).replace(/\s+/g, ' ').trim()` — the `htmlPreview`
computation shared by both metrics implementations. -/
def mkPreview (html : String) : String :=
  String.mk (trimChars (collapseWs (html.toList.take 300)))

/-- Modelled from the spec words only (for comparison with `mkPreview`):
"the whole body with whitespace collapsed", i.e. whitespace runs collapsed
to single spaces and nothing else. -/
def specCollapsed (html : String) : String :=
  String.mk (collapseWs html.toList)

/-- `(htmlSize / 1024).toFixed(2)`: kilobytes with two decimals
(rounding modelled as round-half-up on hundredths). -/
def toFixed2KB (bytes : Nat) : String :=
  let hundredths := (bytes * 100 + 512) / 1024
  toString (hundredths / 100) ++ "." ++
    (if hundredths % 100 < 10 then "0" else "") ++ toString (hundredths % 100)

/-- JavaScript `a || b` on numbers: `a` when non-zero, else `b`. -/
def jsOr (a b : Nat) : Nat :=
  if a = 0 then b else a

/-- The value caught by a `catch` clause: either an `Error` object with a
`message`, or some non-`Error` value. -/
inductive CaughtError where
  | errObj (message : String)
  | nonError
deriving DecidableEq

/-- `error instanceof Error ? error.message : 'Unknown error'`. -/
def caughtMessage : CaughtError → String
  | .errObj m => m
  | .nonError => "Unknown error"

/-- A successfully received HTTP response: status, status text, headers and
the body text. -/
structure FetchResponse where
  status : Nat
  statusText : String
  headersList : List (String × String)
  bodyText : String
deriving DecidableEq

/-- The behaviour of one `fetch`-and-read-body exchange, with the absolute
times at which each stage completed: either success (headers at `tHeaders`,
body fully read at `tDone`), or a throw before headers arrived, or a throw
while reading the body (headers at `tHeaders`, throw at `tFail`). -/
inductive FetchEvent where
  | success (tHeaders tDone : Nat) (resp : FetchResponse)
  | failBeforeHeaders (tFail : Nat) (err : CaughtError)
  | failAfterHeaders (tHeaders tFail : Nat) (err : CaughtError)
deriving DecidableEq

/-- The clock readings of an event are monotone from the start instant `t0`. -/
def WellTimed (t0 : Nat) : FetchEvent → Prop
  | .success tHeaders tDone _ => t0 ≤ tHeaders ∧ tHeaders ≤ tDone
  | .failBeforeHeaders tFail _ => t0 ≤ tFail
  | .failAfterHeaders tHeaders tFail _ => t0 ≤ tHeaders ∧ tHeaders ≤ tFail

instance instDecWellTimed (t0 : Nat) : (ev : FetchEvent) → Decidable (WellTimed t0 ev)
  | .success tHeaders tDone _ => inferInstanceAs (Decidable (t0 ≤ tHeaders ∧ tHeaders ≤ tDone))
  | .failBeforeHeaders tFail _ => inferInstanceAs (Decidable (t0 ≤ tFail))
  | .failAfterHeaders tHeaders tFail _ => inferInstanceAs (Decidable (t0 ≤ tHeaders ∧ tHeaders ≤ tFail))

/-- The `MetricsResult` record. The `part_002` variant declares `error?: string`
(modelled as `Option String`); the `src/lib/metrics.ts` variant has no `error`
field on its success value, modelled as `error = none` there. -/
structure MetricsResult where
  url : String
  status : Nat
  statusText : String
  ttfb : Nat
  totalTime : Nat
  htmlSize : Nat
  htmlSizeKB : String
  headers : List (String × String)
  htmlPreview : String
  timestamp : String
  error : Option String
deriving DecidableEq

/-- The shape of the object thrown by the `catch` block of the
`src/lib/metrics.ts` variant (no size, headers or preview fields). -/
structure FetchFailure where
  url : String
  status : Nat
  statusText : String
  ttfb : Nat
  totalTime : Nat
  error : String
  timestamp : String
deriving DecidableEq

namespace Metrics

/-- `measurePageMetrics` from `src/lib/metrics.ts`. On success it returns the
metrics record; its `catch` block re-`throw`s a `FetchFailure`-shaped object,
modelled as `Except.error`. `t0` is the `startTime` reading, `ev` the network
behaviour, `tstamp` the `new Date().toISOString()` value. -/
def measurePageMetrics (url : String) (t0 : Nat) (ev : FetchEvent) (tstamp : String) :
    Except FetchFailure MetricsResult :=
  match ev with
  | .success tHeaders tDone resp =>
    let ttfbTime := tHeaders - t0
    let totalTime := tDone - t0
    let htmlSize := resp.bodyText.utf8ByteSize
    .ok { url := url, status := resp.status, statusText := resp.statusText,
          ttfb := ttfbTime, totalTime := totalTime, htmlSize := htmlSize,
          htmlSizeKB := toFixed2KB htmlSize, headers := resp.headersList,
          htmlPreview := mkPreview resp.bodyText, timestamp := tstamp,
          error := none }
  | .failBeforeHeaders tFail err =>
    let totalTime := tFail - t0
    .error { url := url, status := 0, statusText := "Fetch Failed",
             ttfb := jsOr 0 totalTime, totalTime := totalTime,
             error := caughtMessage err, timestamp := tstamp }
  | .failAfterHeaders tHeaders tFail err =>
    let ttfbTime := tHeaders - t0
    let totalTime := tFail - t0
    .error { url := url, status := 0, statusText := "Fetch Failed",
             ttfb := jsOr ttfbTime totalTime, totalTime := totalTime,
             error := caughtMessage err, timestamp := tstamp }

end Metrics

namespace MetricsAlt

/-- Relative-URL resolution of the `part_002` variant: a URL starting with `/`
is resolved against `https://<VERCEL_URL>` when that environment value is set
(and non-empty), else against `http://localhost:3000`. -/
def resolveFetchUrl (vercelUrl : Option String) (url : String) : String :=
  if url.startsWith "/" then
    (match vercelUrl with
     | some v => "https://" ++ v
     | none => "http://localhost:3000") ++ url
  else url

/-- `measurePageMetrics` from `src/unnamed/part_002`: total — its `catch`
block returns a sentinel `MetricsResult` instead of throwing. `ev` is the
network behaviour for `resolveFetchUrl vercelUrl url`. -/
def measurePageMetrics (vercelUrl : Option String) (url : String) (t0 : Nat)
    (ev : FetchEvent) (tstamp : String) : MetricsResult :=
  match ev with
  | .success tHeaders tDone resp =>
    let ttfbTime := tHeaders - t0
    let totalTime := tDone - t0
    let htmlSize := resp.bodyText.utf8ByteSize
    { url := url, status := resp.status, statusText := resp.statusText,
      ttfb := ttfbTime, totalTime := totalTime, htmlSize := htmlSize,
      htmlSizeKB := toFixed2KB htmlSize, headers := resp.headersList,
      htmlPreview := mkPreview resp.bodyText, timestamp := tstamp,
      error := if 400 ≤ resp.status then
          some ("HTTP " ++ toString resp.status ++ ": " ++ resp.statusText)
        else none }
  | .failBeforeHeaders tFail err =>
    let totalTime := tFail - t0
    { url := url, status := 0, statusText := "Fetch Failed",
      ttfb := jsOr 0 totalTime, totalTime := totalTime,
      htmlSize := 0, htmlSizeKB := "0.00", headers := [],
      htmlPreview := "", timestamp := tstamp,
      error := some (caughtMessage err) }
  | .failAfterHeaders tHeaders tFail err =>
    let ttfbTime := tHeaders - t0
    let totalTime := tFail - t0
    { url := url, status := 0, statusText := "Fetch Failed",
      ttfb := jsOr ttfbTime totalTime, totalTime := totalTime,
      htmlSize := 0, htmlSizeKB := "0.00", headers := [],
      htmlPreview := "", timestamp := tstamp,
      error := some (caughtMessage err) }

end MetricsAlt

namespace Directus

/-- The `BlogPost` interface of `src/lib/directus.ts`. -/
structure BlogPost where
  slug : String
  title : String
  content : String
  date_updated : String
deriving DecidableEq

/-- The `RequestInit['cache']` literal union. -/
inductive CacheMode where
  | default
  | forceCache
  | noCache
  | noStore
  | onlyIfCached
  | reload
deriving DecidableEq

/-- `revalidate?: number | false` inside the `next` option. -/
inductive RevalidateVal where
  | seconds (n : Nat)
  | never
deriving DecidableEq

/-- The `next` option object: `{ revalidate?: number | false; tags?: string[] }`. -/
structure NextConfig where
  revalidate : Option RevalidateVal := none
  tags : Option (List String) := none
deriving DecidableEq

/-- The `cacheOptions` parameter of `getPost`: a plain cache-mode string, or an
object whose `next` property (itself optional) carries the structured directive. -/
inductive CacheOptions where
  | mode (m : CacheMode)
  | nextObj (next : Option NextConfig)
deriving DecidableEq

/-- The `RequestInit` options assembled by `getPost`: headers plus the optional
`cache` and `next` fields. -/
structure FetchOptions where
  headers : List (String × String)
  cache : Option CacheMode := none
  next : Option NextConfig := none
deriving DecidableEq

/-- The headers object: always `Content-Type`, plus `Authorization` when a
Directus token is configured (non-empty). -/
def buildHeaders (token : String) : List (String × String) :=
  [("Content-Type", "application/json")] ++
    (if token ≠ "" then [("Authorization", "Bearer " ++ token)] else [])

/-- The `fetchOptions` assembly in `getPost`: a string directive is copied into
`fetchOptions.cache`; an object directive with a `next` key copies that key's
value into `fetchOptions.next`; no directive leaves both unset. -/
def buildFetchOptions (token : String) (copts : Option CacheOptions) : FetchOptions :=
  let base : FetchOptions := { headers := buildHeaders token }
  match copts with
  | none => base
  | some (.mode m) => { base with cache := some m }
  | some (.nextObj n) => { base with next := n }

/-- The request URL built by `getPost`: the slug is interpolated verbatim into
the template literal between the filter and the field list. -/
def getPostUrl (base slug : String) : String :=
  base ++ "/items/blogs?filter[slug][_eq]=" ++ slug ++
    "&fields=slug,title,content,date_created,date_updated"

/-- The outgoing request of `getPost`: URL plus fetch options. -/
structure DirectusRequest where
  url : String
  options : FetchOptions
deriving DecidableEq

/-- URL and options of the request `getPost` issues for a given base URL,
token, slug and cache directive. -/
def getPostRequest (base token slug : String) (copts : Option CacheOptions) :
    DirectusRequest :=
  { url := getPostUrl base slug, options := buildFetchOptions token copts }

/-- What `response.json()` yields: a throw (malformed JSON), a JSON value with
no `data` array, or a `data` array of post objects. -/
inductive JsonBody where
  | malformed
  | noData
  | withData (items : List BlogPost)
deriving DecidableEq

/-- The outcome of one CMS exchange: `fetch` throws, or a response arrives with
an `ok` flag, status text and body. -/
inductive DirectusOutcome where
  | networkError (err : CaughtError)
  | response (ok : Bool) (statusText : String) (body : JsonBody)
deriving DecidableEq

/-- `getPost` from `src/lib/directus.ts` as a function of the network outcome:
`null` (here `none`) on a thrown fetch, a non-ok response, malformed JSON, a
missing or empty `data` array; otherwise the first element of `data`. The
cache directive only shapes the request, never the result. -/
def getPost (slug : String) (copts : Option CacheOptions) (outcome : DirectusOutcome) :
    Option BlogPost :=
  match outcome with
  | .networkError _ => none
  | .response ok _ body =>
    if !ok then none
    else
      match body with
      | .malformed => none
      | .noData => none
      | .withData [] => none
      | .withData (p :: _) => some p

/-- `getAllSlugs` from `src/lib/directus.ts` as a function of the network
outcome: the `data` array mapped to its `slug` fields in order, and `[]` on a
thrown fetch, a non-ok response, malformed JSON or a missing `data` array. -/
def getAllSlugs (outcome : DirectusOutcome) : List String :=
  match outcome with
  | .networkError _ => []
  | .response ok _ body =>
    if !ok then []
    else
      match body with
      | .malformed => []
      | .noData => []
      | .withData items => items.map (fun p => p.slug)

end Directus

/-- JavaScript falsiness of an optional string field: absent or empty. -/
def jsFalsyStr : Option String → Bool
  | none => true
  | some s => s == ""

namespace RevalidateAPI

/-- The parsed body of `POST /api/revalidate`. -/
structure RevalidateBody where
  slug : Option String := none
  secret : Option String := none
deriving DecidableEq

/-- The possible JSON responses of the revalidation handler. -/
inductive RevResponse where
  | badRequest (error : String)
  | okResponse (success : Bool) (message slug : String)
      (revalidated : List String) (timestamp : String)
  | serverError (error message : String)
deriving DecidableEq

/-- The `POST` handler of `src/unnamed/part_001`. `parsed` is the result of
`request.json()` (a throw lands in the outer catch, a 500); `pathOutcome`
models `revalidatePath`, giving the platform error thrown for a path, if any;
`tstamp` is `new Date().toISOString()`. Besides the response, the handler
yields the list of paths whose revalidation calls completed. The commented-out
secret check is absent, so `secret` is never read. -/
def revalidatePOST (parsed : Except CaughtError RevalidateBody)
    (pathOutcome : String → Option CaughtError) (tstamp : String) :
    RevResponse × List String :=
  match parsed with
  | .error e => (.serverError "Failed to revalidate" (caughtMessage e), [])
  | .ok body =>
    if jsFalsyStr body.slug then
      (.badRequest "Missing required field: slug", [])
    else
      let slug := body.slug.getD ""
      let p1 := "/blog/isr/" ++ slug
      let p2 := "/blog/isr-ondemand/" ++ slug
      match pathOutcome p1 with
      | some e => (.serverError "Failed to revalidate" (caughtMessage e), [])
      | none =>
        match pathOutcome p2 with
        | some e => (.serverError "Failed to revalidate" (caughtMessage e), [p1])
        | none =>
          (.okResponse true "Revalidation triggered successfully" slug [p1, p2] tstamp,
           [p1, p2])

end RevalidateAPI

namespace MetricsAPI

/-- The parsed body of `POST /api/metrics`. -/
structure MetricsBody where
  url : Option String := none
deriving DecidableEq

/-- The parts of a parsed `URL` object the handler reads. -/
structure URLParts where
  host : String
  pathname : String
  search : String
deriving DecidableEq

/-- The possible JSON responses of the metrics handler. -/
inductive MetricsResponse where
  | okResponse (m : MetricsResult)
  | badRequest (error : String)
  | serverError (error message : String)
deriving DecidableEq

/-- The same-domain rewrite of `src/unnamed/part_000`: when the tested URL's
host equals the request's `host` header, fetch `pathname + search` instead. -/
def computeTestUrl (urlParse : String → Option URLParts) (requestHost : Option String)
    (url : String) : String :=
  match urlParse url with
  | none => url
  | some parts =>
    match requestHost with
    | some h => if parts.host = h then parts.pathname ++ parts.search else url
    | none => url

/-- The `POST` handler of `src/app/api/metrics/route.ts` (= `src/unnamed/part_000`).
`parsed` is the `request.json()` result; `urlParse` models the platform `new URL`
constructor (`none` = it throws); the measurement is `Metrics.measurePageMetrics`
from `src/lib/metrics.ts`, whose thrown failure object is not an `Error` instance,
so the outer catch reports `Unknown error`. The returned flag records whether the
measurement operation was invoked. -/
def metricsPOST (parsed : Except CaughtError MetricsBody)
    (urlParse : String → Option URLParts) (requestHost : Option String)
    (t0 : Nat) (ev : FetchEvent) (tstamp : String) : MetricsResponse × Bool :=
  match parsed with
  | .error e => (.serverError "Failed to measure metrics" (caughtMessage e), false)
  | .ok body =>
    if jsFalsyStr body.url then
      (.badRequest "Missing required field: url", false)
    else
      let url := body.url.getD ""
      match urlParse url with
      | none => (.badRequest "Invalid URL format", false)
      | some _ =>
        let testUrl := computeTestUrl urlParse requestHost url
        match Metrics.measurePageMetrics testUrl t0 ev tstamp with
        | .ok m => (.okResponse m, true)
        | .error _ => (.serverError "Failed to measure metrics" "Unknown error", true)

end MetricsAPI

/-! Helper lemmas -/

theorem jsOr_le (a b : Nat) (h : a ≤ b) : jsOr a b ≤ b := by
  unfold jsOr
  split
  · exact Nat.le_refl b
  · exact h

theorem length_collapseAux_le (b : Bool) (l : List Char) :
    (collapseAux b l).length ≤ l.length := by
  induction l generalizing b with
  | nil => simp [collapseAux]
  | cons c rest ih =>
    simp only [collapseAux]
    split
    · split
      · exact Nat.le_succ_of_le (ih true)
      · exact Nat.succ_le_succ (ih true)
    · exact Nat.succ_le_succ (ih false)

theorem length_dropWhileChars_le (p : Char → Bool) (l : List Char) :
    (l.dropWhile p).length ≤ l.length := by
  induction l with
  | nil => simp [List.dropWhile]
  | cons c rest ih =>
    simp only [List.dropWhile]
    split
    · exact Nat.le_succ_of_le ih
    · exact Nat.le_refl _

theorem length_trimChars_le (l : List Char) : (trimChars l).length ≤ l.length := by
  unfold trimChars
  rw [List.length_reverse]
  calc ((l.dropWhile isJsWhitespace).reverse.dropWhile isJsWhitespace).length
      ≤ (l.dropWhile isJsWhitespace).reverse.length :=
        length_dropWhileChars_le _ _
    _ = (l.dropWhile isJsWhitespace).length := List.length_reverse _
    _ ≤ l.length := length_dropWhileChars_le _ _

theorem mkPreview_length_le (html : String) : (mkPreview html).length ≤ 300 := by
  have h1 : (trimChars (collapseWs (html.toList.take 300))).length ≤
      (html.toList.take 300).length :=
    Nat.le_trans (length_trimChars_le _) (length_collapseAux_le false _)
  have h2 : (html.toList.take 300).length ≤ 300 := by
    rw [List.length_take]
    exact Nat.min_le_left _ _
  exact Nat.le_trans h1 h2

/-! Claim theorems -/

/-- Claim C1, counterexample: the claim says `measurePageMetrics` never raises,
but the `src/lib/metrics.ts` variant does raise — at a concrete input whose
fetch throws before headers arrive, it produces an exception (`Except.error`)
carrying the failure object, not a returned `MetricsResult`. -/
theorem C1_counterexample :
    Metrics.measurePageMetrics "https://example.com/" 0
        (.failBeforeHeaders 5 (.errObj "network down")) "2026-01-01T00:00:00.000Z" =
      .error { url := "https://example.com/", status := 0, statusText := "Fetch Failed",
               ttfb := 5, totalTime := 5, error := "network down",
               timestamp := "2026-01-01T00:00:00.000Z" } := rfl

/-- Claim C1 (amended): the `src/unnamed/part_002` variant of
`measurePageMetrics` never raises — it is a total function into
`MetricsResult` — and on every failure event it returns status `0`,
statusText `"Fetch Failed"`, the caught error's message in the `error` field,
`totalTime` equal to the elapsed time up to the failure point, and
`ttfb ≤ totalTime`; the `src/lib/metrics.ts` variant instead throws an object
of the same failure shape. -/
theorem C1_amended (vercelUrl : Option String) (url tstamp : String)
    (t0 tHeaders tFail : Nat) (e : CaughtError) (hle : tHeaders ≤ tFail) :
    ((MetricsAlt.measurePageMetrics vercelUrl url t0 (.failBeforeHeaders tFail e) tstamp).status = 0 ∧
     (MetricsAlt.measurePageMetrics vercelUrl url t0 (.failBeforeHeaders tFail e) tstamp).statusText = "Fetch Failed" ∧
     (MetricsAlt.measurePageMetrics vercelUrl url t0 (.failBeforeHeaders tFail e) tstamp).error = some (caughtMessage e) ∧
     (MetricsAlt.measurePageMetrics vercelUrl url t0 (.failBeforeHeaders tFail e) tstamp).totalTime = tFail - t0 ∧
     (MetricsAlt.measurePageMetrics vercelUrl url t0 (.failBeforeHeaders tFail e) tstamp).ttfb ≤
       (MetricsAlt.measurePageMetrics vercelUrl url t0 (.failBeforeHeaders tFail e) tstamp).totalTime) ∧
    ((MetricsAlt.measurePageMetrics vercelUrl url t0 (.failAfterHeaders tHeaders tFail e) tstamp).status = 0 ∧
     (MetricsAlt.measurePageMetrics vercelUrl url t0 (.failAfterHeaders tHeaders tFail e) tstamp).statusText = "Fetch Failed" ∧
     (MetricsAlt.measurePageMetrics vercelUrl url t0 (.failAfterHeaders tHeaders tFail e) tstamp).error = some (caughtMessage e) ∧
     (MetricsAlt.measurePageMetrics vercelUrl url t0 (.failAfterHeaders tHeaders tFail e) tstamp).totalTime = tFail - t0 ∧
     (MetricsAlt.measurePageMetrics vercelUrl url t0 (.failAfterHeaders tHeaders tFail e) tstamp).ttfb ≤
       (MetricsAlt.measurePageMetrics vercelUrl url t0 (.failAfterHeaders tHeaders tFail e) tstamp).totalTime) := by
  refine ⟨⟨rfl, rfl, rfl, rfl, ?_⟩, ⟨rfl, rfl, rfl, rfl, ?_⟩⟩
  · exact jsOr_le 0 (tFail - t0) (Nat.zero_le _)
  · exact jsOr_le (tHeaders - t0) (tFail - t0) (Nat.sub_le_sub_right hle t0)

/-- Witness for C1 (amended) at a concrete failing fetch. -/
theorem C1_witness :
    (MetricsAlt.measurePageMetrics none "https://example.com/" 10
        (.failAfterHeaders 12 17 (.errObj "socket hang up")) "t").status = 0 ∧
    (MetricsAlt.measurePageMetrics none "https://example.com/" 10
        (.failAfterHeaders 12 17 (.errObj "socket hang up")) "t").statusText = "Fetch Failed" ∧
    (MetricsAlt.measurePageMetrics none "https://example.com/" 10
        (.failAfterHeaders 12 17 (.errObj "socket hang up")) "t").error =
      some (caughtMessage (.errObj "socket hang up")) ∧
    (MetricsAlt.measurePageMetrics none "https://example.com/" 10
        (.failAfterHeaders 12 17 (.errObj "socket hang up")) "t").totalTime = 17 - 10 ∧
    (MetricsAlt.measurePageMetrics none "https://example.com/" 10
        (.failAfterHeaders 12 17 (.errObj "socket hang up")) "t").ttfb ≤
      (MetricsAlt.measurePageMetrics none "https://example.com/" 10
        (.failAfterHeaders 12 17 (.errObj "socket hang up")) "t").totalTime :=
  (C1_amended none "https://example.com/" "t" 10 12 17 (.errObj "socket hang up")
    (by decide)).2

/-- Claim C2: every `MetricsResult` either variant of `measurePageMetrics`
produces — the `part_002` variant on all paths, the `src/lib/metrics.ts`
variant on its (only) success path — satisfies `ttfb ≤ totalTime` and
`htmlSize ≥ 0`, given monotone clock readings. -/
theorem C2_invariant (vercelUrl : Option String) (url tstamp : String) (t0 : Nat)
    (ev : FetchEvent) (hwt : WellTimed t0 ev) :
    ((MetricsAlt.measurePageMetrics vercelUrl url t0 ev tstamp).ttfb ≤
       (MetricsAlt.measurePageMetrics vercelUrl url t0 ev tstamp).totalTime ∧
     0 ≤ (MetricsAlt.measurePageMetrics vercelUrl url t0 ev tstamp).htmlSize) ∧
    (∀ r : MetricsResult, Metrics.measurePageMetrics url t0 ev tstamp = .ok r →
       r.ttfb ≤ r.totalTime ∧ 0 ≤ r.htmlSize) := by
  cases ev with
  | success tHeaders tDone resp =>
    obtain ⟨h1, h2⟩ := hwt
    refine ⟨⟨Nat.sub_le_sub_right h2 t0, Nat.zero_le _⟩, ?_⟩
    intro r hr
    simp only [Metrics.measurePageMetrics, Except.ok.injEq] at hr
    subst hr
    exact ⟨Nat.sub_le_sub_right h2 t0, Nat.zero_le _⟩
  | failBeforeHeaders tFail err =>
    refine ⟨⟨jsOr_le 0 (tFail - t0) (Nat.zero_le _), Nat.zero_le _⟩, ?_⟩
    intro r hr
    simp [Metrics.measurePageMetrics] at hr
  | failAfterHeaders tHeaders tFail err =>
    obtain ⟨h1, h2⟩ := hwt
    refine ⟨⟨jsOr_le (tHeaders - t0) (tFail - t0) (Nat.sub_le_sub_right h2 t0),
      Nat.zero_le _⟩, ?_⟩
    intro r hr
    simp [Metrics.measurePageMetrics] at hr

/-- Witness for C2 at a concrete successful fetch. -/
theorem C2_witness :
    ((MetricsAlt.measurePageMetrics none "https://example.com/" 0
        (.success 3 10 { status := 200, statusText := "OK", headersList := [],
                         bodyText := "<p>hi</p>" }) "t").ttfb ≤
       (MetricsAlt.measurePageMetrics none "https://example.com/" 0
        (.success 3 10 { status := 200, statusText := "OK", headersList := [],
                         bodyText := "<p>hi</p>" }) "t").totalTime ∧
     0 ≤ (MetricsAlt.measurePageMetrics none "https://example.com/" 0
        (.success 3 10 { status := 200, statusText := "OK", headersList := [],
                         bodyText := "<p>hi</p>" }) "t").htmlSize) ∧
    (∀ r : MetricsResult,
       Metrics.measurePageMetrics "https://example.com/" 0
        (.success 3 10 { status := 200, statusText := "OK", headersList := [],
                         bodyText := "<p>hi</p>" }) "t" = .ok r →
       r.ttfb ≤ r.totalTime ∧ 0 ≤ r.htmlSize) :=
  C2_invariant none "https://example.com/" "t" 0
    (.success 3 10 { status := 200, statusText := "OK", headersList := [],
                     bodyText := "<p>hi</p>" }) (by decide)

/-- Claim C5, counterexample: for a body shorter than 300 characters with
leading whitespace, the preview is NOT the whole body with whitespace
collapsed — the code additionally calls `.trim()`, which strips the leading
space. -/
theorem C5_counterexample :
    (" a" : String).length < 300 ∧ mkPreview " a" ≠ specCollapsed " a" := by
  constructor
  · decide
  · decide

/-- Claim C5 (amended): for a 1000-character body the preview, after
whitespace collapsing, has length at most 300; for a body under 300
characters the preview equals the whole body with whitespace runs collapsed
to single spaces AND leading/trailing whitespace trimmed. -/
theorem C5_amended (html : String) :
    (html.length = 1000 → (mkPreview html).length ≤ 300) ∧
    (html.length < 300 →
      mkPreview html = String.mk (trimChars (collapseWs html.toList))) := by
  constructor
  · intro _
    exact mkPreview_length_le html
  · intro h
    unfold mkPreview
    have hlen : html.toList.length ≤ 300 := Nat.le_of_lt h
    rw [List.take_of_length_le hlen]

set_option maxRecDepth 100000 in
/-- Witness for C5 (amended): a 1000-character body and a short body. -/
theorem C5_witness :
    (String.mk (List.replicate 1000 'a')).length = 1000 ∧
    (mkPreview (String.mk (List.replicate 1000 'a'))).length ≤ 300 ∧
    mkPreview "short body" = String.mk (trimChars (collapseWs ("short body" : String).toList)) :=
  ⟨by decide,
   (C5_amended (String.mk (List.replicate 1000 'a'))).1 (by decide),
   (C5_amended "short body").2 (by decide)⟩

/-- Claim C3: for every identifier and cache directive, `getPost` returns the
matching item when the CMS response is ok and its `data` array is non-empty
(the first element, which the CMS filter makes the match), and returns `none`
— as a value, never an exception, since the embedding is a total function —
on zero matches, a non-ok status, malformed JSON, a missing `data` array, or
a network-level failure. -/
theorem C3_getPost (slug statusText : String) (copts : Option Directus.CacheOptions)
    (p : Directus.BlogPost) (ps : List Directus.BlogPost) (e : CaughtError)
    (body : Directus.JsonBody) :
    Directus.getPost slug copts (.response true statusText (.withData (p :: ps))) = some p ∧
    Directus.getPost slug copts (.networkError e) = none ∧
    Directus.getPost slug copts (.response false statusText body) = none ∧
    Directus.getPost slug copts (.response true statusText (.withData [])) = none ∧
    Directus.getPost slug copts (.response true statusText .malformed) = none ∧
    Directus.getPost slug copts (.response true statusText .noData) = none :=
  ⟨rfl, rfl, rfl, rfl, rfl, rfl⟩

/-- Claim C4: `POST /api/revalidate` with slug "sample" (and no platform
error) responds with a success confirmation whose `revalidated` list is
exactly the timed-regeneration path `/blog/isr/sample` and the
explicitly-triggered path `/blog/isr-ondemand/sample`, plus the timestamp;
exactly those two paths are revalidated. -/
theorem C4_revalidate_sample (secret : Option String) (tstamp : String) :
    RevalidateAPI.revalidatePOST
        (.ok { slug := some "sample", secret := secret }) (fun _ => none) tstamp =
      (.okResponse true "Revalidation triggered successfully" "sample"
         ["/blog/isr/sample", "/blog/isr-ondemand/sample"] tstamp,
       ["/blog/isr/sample", "/blog/isr-ondemand/sample"]) := rfl

/-- Claim C6: any string cache directive is copied unmodified into the
request's `cache` field, and any structured directive's `next` value is
copied unmodified into the request's `next` field. -/
theorem C6_cache_forwarding (base token slug : String) (m : Directus.CacheMode)
    (n : Option Directus.NextConfig) :
    (Directus.getPostRequest base token slug (some (.mode m))).options.cache = some m ∧
    (Directus.getPostRequest base token slug (some (.nextObj n))).options.next = n :=
  ⟨rfl, rfl⟩

/-- Claim C7: `getAllSlugs` returns the identifier strings in the order the
CMS supplies them, and the empty list — as a value, never an exception — on a
non-ok status, a network error, malformed JSON or a missing `data` array. -/
theorem C7_getAllSlugs (statusText : String) (items : List Directus.BlogPost)
    (e : CaughtError) (body : Directus.JsonBody) :
    Directus.getAllSlugs (.response true statusText (.withData items)) =
      items.map (fun p => p.slug) ∧
    Directus.getAllSlugs (.networkError e) = [] ∧
    Directus.getAllSlugs (.response false statusText body) = [] ∧
    Directus.getAllSlugs (.response true statusText .malformed) = [] ∧
    Directus.getAllSlugs (.response true statusText .noData) = [] :=
  ⟨rfl, rfl, rfl, rfl, rfl⟩

/-- Claim C8: the metrics endpoint responds 400 without invoking the
measurement when the `url` field is missing (or empty, which JavaScript
treats as missing) or when the URL does not parse; it responds 500 when the
request body fails to parse, and 500 when the measurement itself fails
internally (having been invoked). -/
theorem C8_metrics_endpoint (urlParse : String → Option MetricsAPI.URLParts)
    (requestHost : Option String) (t0 : Nat) (ev : FetchEvent)
    (tstamp u : String) (e : CaughtError) (tFail : Nat) (fetchErr : CaughtError) :
    (MetricsAPI.metricsPOST (.ok { url := none }) urlParse requestHost t0 ev tstamp =
       (.badRequest "Missing required field: url", false)) ∧
    (MetricsAPI.metricsPOST (.ok { url := some "" }) urlParse requestHost t0 ev tstamp =
       (.badRequest "Missing required field: url", false)) ∧
    (u ≠ "" → urlParse u = none →
      MetricsAPI.metricsPOST (.ok { url := some u }) urlParse requestHost t0 ev tstamp =
        (.badRequest "Invalid URL format", false)) ∧
    (MetricsAPI.metricsPOST (.error e) urlParse requestHost t0 ev tstamp =
       (.serverError "Failed to measure metrics" (caughtMessage e), false)) ∧
    (∀ parts, u ≠ "" → urlParse u = some parts →
      MetricsAPI.metricsPOST (.ok { url := some u }) urlParse requestHost t0
          (.failBeforeHeaders tFail fetchErr) tstamp =
        (.serverError "Failed to measure metrics" "Unknown error", true)) := by
  refine ⟨rfl, rfl, ?_, rfl, ?_⟩
  · intro hne hp
    have hfalse : jsFalsyStr (some u) = false := by simp [jsFalsyStr, hne]
    simp [MetricsAPI.metricsPOST, hfalse, hp]
  · intro parts hne hp
    have hfalse : jsFalsyStr (some u) = false := by simp [jsFalsyStr, hne]
    simp [MetricsAPI.metricsPOST, hfalse, hp, Metrics.measurePageMetrics]

/-- A concrete `new URL` model for the C8 witness: parses exactly one URL. -/
def urlParseOne : String → Option MetricsAPI.URLParts :=
  fun s => if s == "https://h/p" then some { host := "h", pathname := "/p", search := "" }
           else none

/-- Witness for C8: a string that does not parse as a URL is answered 400
without measuring; a parsing URL whose fetch fails is answered 500 after
measuring. -/
theorem C8_witness :
    (MetricsAPI.metricsPOST (.ok { url := some "not a url" }) urlParseOne none 0
        (.failBeforeHeaders 5 .nonError) "t" =
      (.badRequest "Invalid URL format", false)) ∧
    (MetricsAPI.metricsPOST (.ok { url := some "https://h/p" }) urlParseOne (some "h") 0
        (.failBeforeHeaders 5 .nonError) "t" =
      (.serverError "Failed to measure metrics" "Unknown error", true)) :=
  ⟨(C8_metrics_endpoint urlParseOne none 0 (.failBeforeHeaders 5 .nonError) "t"
      "not a url" .nonError 5 .nonError).2.2.1 (by decide) (by decide),
   (C8_metrics_endpoint urlParseOne (some "h") 0 (.failBeforeHeaders 5 .nonError) "t"
      "https://h/p" .nonError 5 .nonError).2.2.2.2
     { host := "h", pathname := "/p", search := "" } (by decide) (by decide)⟩

/-- Claim C9: the supplied secret has no influence on the revalidation
endpoint's outcome — two requests with the same slug field and any two
(present or absent) secret values produce the same response and revalidate
the same paths. -/
theorem C9_secret_no_influence (slugOpt s1 s2 : Option String)
    (pathOutcome : String → Option CaughtError) (tstamp : String) :
    RevalidateAPI.revalidatePOST (.ok { slug := slugOpt, secret := s1 }) pathOutcome tstamp =
      RevalidateAPI.revalidatePOST (.ok { slug := slugOpt, secret := s2 }) pathOutcome tstamp :=
  rfl

/-- Claim C10: `getPost` builds the CMS request URL by inserting the slug
verbatim — unencoded and unvalidated — between the literal filter prefix and
the literal field-list suffix; concretely, a slug containing `&` and `=`
lands verbatim in the query string, altering the query sent to the CMS. -/
theorem C10_url_construction (base token slug : String)
    (copts : Option Directus.CacheOptions) :
    (Directus.getPostRequest base token slug copts).url =
      base ++ "/items/blogs?filter[slug][_eq]=" ++ slug ++
        "&fields=slug,title,content,date_created,date_updated" ∧
    (Directus.getPostRequest "" "" "a&fields=x" none).url =
      "/items/blogs?filter[slug][_eq]=a&fields=x&fields=slug,title,content,date_created,date_updated" :=
  ⟨rfl, by decide⟩

end NextjsBlog
